import Mathlib

/-!
Shallow embedding of the HAUS voice-agent worker
(`packages/backend/agent-worker/agent.py`): the Convex memory client,
the conversation-context mediator (`on_user_turn_completed`), the tool
surface (`search_properties`, `remember_preference`,
`get_property_details`) and identity resolution in `haus_agent`.

HTTP calls are modelled by an `HttpOutcome` value handed to each client
function: a transport error, or a response with a status code and an
already-parsed-or-failed body (`httpx.Response.raise_for_status` raises
for every non-2xx status; `response.json()` raises on a malformed body;
both are caught by the same `except Exception` handler as transport
errors).  All embedded functions are total Lean functions, which models
the "never propagates an exception" contract of the `try/except` blocks.
-/

namespace Haus

set_option maxRecDepth 100000

/-- Python truthiness for an optional string: `x or d` yields `d` when
`x` is `None` or the empty string (both falsy), else the string. -/
def pyOrStr (x : Option String) (d : String) : String :=
  match x with
  | some s => if s = "" then d else s
  | none => d

/-- Python truthiness for an optional integer: `x or d` yields `d` when
`x` is `None` or `0` (both falsy), else the value. -/
def pyOrInt (x : Option Int) (d : Int) : Int :=
  match x with
  | some v => if v = 0 then d else v
  | none => d

/-- Outcome of one HTTP round trip as seen by the agent code: either a
transport-level exception, or a response carrying a status code and the
result of parsing its body into the expected shape (`Except.error` when
`response.json()` would raise on a malformed body). -/
inductive HttpOutcome (α : Type) where
  | transportError (msg : String)
  | response (status : Nat) (parsed : Except String α)

/-- A call fails when the transport errors, the status is not 2xx
(`raise_for_status` raises), or the body does not parse. -/
def isHttpFailure {α : Type} : HttpOutcome α → Bool
  | .transportError _ => true
  | .response status parsed =>
      if 200 ≤ status ∧ status < 300 then
        match parsed with
        | .ok _ => false
        | .error _ => true
      else true

/-- Boolean substring test on strings (via their character lists). -/
def containsSubstr (s sub : String) : Bool :=
  decide (sub.data <:+: s.data)

/-- Digit grouping helper: walking the reversed digit list, insert a
comma after every third digit that is followed by more digits. -/
def groupRev : List Char → List Char
  | a :: b :: c :: d :: rest => a :: b :: c :: ',' :: groupRev (d :: rest)
  | l => l

/-- Python `f"{n:,}"` for a natural number: thousands separators. -/
def commaFormatNat (n : Nat) : String :=
  ⟨(groupRev (toString n).data.reverse).reverse⟩

/-- Python `f"{n:,}"` for an integer. -/
def commaFormat (n : Int) : String :=
  if n < 0 then "-" ++ commaFormatNat n.natAbs else commaFormatNat n.natAbs

/-! ## Data model (RecallResult and working context) -/

/-- One learned fact from the recall bundle (`fact`, `confidence`). -/
structure FactEntry where
  fact : String
  confidence : Int
deriving DecidableEq

/-- One suburb preference from the recall bundle
(`suburbName`, `preferenceScore`). -/
structure SuburbPreference where
  suburbName : String
  preferenceScore : Int
deriving DecidableEq

/-- One property interaction from the recall bundle
(`propertyId`, `interactionType`). -/
structure PropertyInteraction where
  propertyId : String
  interactionType : String
deriving DecidableEq

/-- The structured bundle returned by `/api/cortex/recall`, field order
as in the fallback dict literal of `ConvexClient.recall_context`. -/
structure RecallResult where
  memories : List String
  facts : List FactEntry
  propertyInteractions : List PropertyInteraction
  suburbPreferences : List SuburbPreference
deriving DecidableEq

/-- The all-empty `RecallResult` built in the `except` branch of
`ConvexClient.recall_context`. -/
def emptyRecall : RecallResult :=
  { memories := []
    facts := []
    propertyInteractions := []
    suburbPreferences := [] }

/-- One role-tagged message of the working context. -/
structure ChatMsg where
  role : String
  content : String
deriving DecidableEq

/-! ## Memory client (`ConvexClient`) -/

/-- `ConvexClient.recall_context`: returns the parsed bundle on success
and the all-empty `RecallResult` when the call raised (transport error,
`raise_for_status` on a non-2xx status, or a body `json()` could not
parse). -/
def recall_context (resp : HttpOutcome RecallResult) : RecallResult :=
  match resp with
  | .transportError _ => emptyRecall
  | .response status parsed =>
      if 200 ≤ status ∧ status < 300 then
        match parsed with
        | .ok r => r
        | .error _ => emptyRecall
      else emptyRecall

/-- `ConvexClient.store_preference`: `response.json().get("success",
False)` on success (the parsed body is `some b` when a `success` field
is present, `none` otherwise), `False` when the call raised. -/
def store_preference (resp : HttpOutcome (Option Bool)) : Bool :=
  match resp with
  | .transportError _ => false
  | .response status parsed =>
      if 200 ≤ status ∧ status < 300 then
        match parsed with
        | .ok (some b) => b
        | .ok none => false
        | .error _ => false
      else false

/-! ## Conversation context mediator (`HausAgent.on_user_turn_completed`) -/

/-- `HausAgent.on_user_turn_completed`, acting on the already-recalled
bundle: appends the synthetic assistant messages for suburb preferences
(one joined message, top 5), facts (one message each, top 5) and
property interactions (one message each, top 3) to the working
context. -/
def on_user_turn_completed (turn_ctx : List ChatMsg) (context : RecallResult) :
    List ChatMsg :=
  let ctx1 :=
    if context.suburbPreferences.isEmpty then turn_ctx
    else
      let prefs := context.suburbPreferences.take 5
      let prefSummary := String.intercalate ", " (prefs.map (fun p =>
        p.suburbName ++ " (score: " ++ toString p.preferenceScore ++ ")"))
      turn_ctx ++ [⟨"assistant", "User\x27s suburb preferences: " ++ prefSummary⟩]
  let ctx2 :=
    if context.facts.isEmpty then ctx1
    else ctx1 ++ (context.facts.take 5).map (fun f =>
      (⟨"assistant",
        "Remembered: " ++ f.fact ++ " (confidence: " ++ toString f.confidence ++ "%)"⟩ : ChatMsg))
  let ctx3 :=
    if context.propertyInteractions.isEmpty then ctx2
    else ctx2 ++ (context.propertyInteractions.take 3).map (fun i =>
      (⟨"assistant",
        "User recently viewed: " ++ i.propertyId ++ " (" ++ i.interactionType ++ ")"⟩ : ChatMsg))
  ctx3

/-- The (zero or one) suburb-preference messages the mediator appends. -/
def suburbMsgs (context : RecallResult) : List ChatMsg :=
  if context.suburbPreferences.isEmpty then []
  else
    [⟨"assistant", "User\x27s suburb preferences: " ++
      String.intercalate ", " ((context.suburbPreferences.take 5).map (fun p =>
        p.suburbName ++ " (score: " ++ toString p.preferenceScore ++ ")"))⟩]

/-- The fact messages the mediator appends: one per fact, top 5. -/
def factMsgs (context : RecallResult) : List ChatMsg :=
  (context.facts.take 5).map (fun f =>
    ⟨"assistant",
      "Remembered: " ++ f.fact ++ " (confidence: " ++ toString f.confidence ++ "%)"⟩)

/-- The interaction messages the mediator appends: one each, top 3. -/
def interactionMsgs (context : RecallResult) : List ChatMsg :=
  (context.propertyInteractions.take 3).map (fun i =>
    ⟨"assistant",
      "User recently viewed: " ++ i.propertyId ++ " (" ++ i.interactionType ++ ")"⟩)

/-! ## Tool surface -/

/-- One synthesized candidate record of `search_properties`. -/
structure SearchResult where
  id : String
  address : String
  price : Int
  bedrooms : Int
  bathrooms : Int
  description : String
deriving DecidableEq

/-- The two mock candidate records built by `HausAgent.search_properties`
from the input filters, with Python `or`-defaulting on the optional
arguments (`bedrooms or 3`, `property_type or "House"`,
`budget_max or 1500000`, `(budget_max or 1000000) - 200000`). -/
def search_properties (location : String)
    (budget_min budget_max bedrooms : Option Int)
    (property_type : Option String) : List SearchResult :=
  [ { id := "prop-001"
      address := toString (pyOrInt bedrooms 3) ++ " Bedroom " ++
        pyOrStr property_type "House" ++ " in " ++ location
      price := pyOrInt budget_max 1500000
      bedrooms := pyOrInt bedrooms 3
      bathrooms := 2
      description := "Modern property with great natural light" },
    { id := "prop-002"
      address := toString (pyOrInt bedrooms 2) ++ " Bedroom Apartment in " ++ location
      price := pyOrInt budget_max 1000000 - 200000
      bedrooms := pyOrInt bedrooms 2
      bathrooms := 1
      description := "Recently renovated with new kitchen" } ]

/-- The string `HausAgent.search_properties` actually returns.  The
source has two further f-string literals on the lines after the
`return` statement, but without parentheses they are separate,
unreachable expression statements, so only the first fragment is
returned (see `search_properties_intended_response`). -/
def search_properties_response (location : String)
    (budget_min budget_max bedrooms : Option Int)
    (property_type : Option String) : String :=
  let results := search_properties location budget_min budget_max bedrooms property_type
  "Found " ++ toString results.length ++ " properties in " ++ location ++ ". "

/-- The summary the three adjacent f-string literals of
`HausAgent.search_properties` would produce if they were concatenated
into one return value, as the surrounding docstring intends. -/
def search_properties_intended_response (location : String)
    (budget_min budget_max bedrooms : Option Int)
    (property_type : Option String) : String :=
  let results := search_properties location budget_min budget_max bedrooms property_type
  match results with
  | top :: _ =>
      "Found " ++ toString results.length ++ " properties in " ++ location ++ ". " ++
      "The top match is a " ++ toString top.bedrooms ++ " bedroom at $" ++
      commaFormat top.price ++ ". " ++
      "Would you like more details about any of these?"
  | [] => "Found 0 properties in " ++ location ++ ". "

/-- Helper for `pySplit`: scan the character list left to right,
splitting at each non-overlapping occurrence of the separator.  `fuel`
bounds the recursion (it never runs out when it starts at the list
length, since every step consumes at least one character). -/
def pySplitAux (sep : List Char) : Nat → List Char → List Char → List (List Char)
  | _, acc, [] => [acc.reverse]
  | 0, acc, l => [acc.reverse ++ l]
  | fuel + 1, acc, c :: rest =>
      if sep.isPrefixOf (c :: rest) then
        acc.reverse :: pySplitAux sep fuel [] ((c :: rest).drop sep.length)
      else
        pySplitAux sep fuel (c :: acc) rest

/-- Python `s.split(sep)` for a non-empty separator: splits at every
non-overlapping occurrence of `sep`, keeping empty pieces (Python
raises on an empty separator; that case never occurs here). -/
def pySplit (s sep : String) : List String :=
  if sep.data = [] then [s]
  else (pySplitAux sep.data s.data.length [] s.data).map (fun cs => ⟨cs⟩)

/-- The metadata dict assembled by `HausAgent.remember_preference`
(optional keys model keys that are only set for the "suburb"
category). -/
structure PrefMetadata where
  mentionedInQuery : Option String
  suburbName : Option String
  state : Option String
  reason : Option String
deriving DecidableEq

/-- What one call of `HausAgent.remember_preference` produces: the
confidence and metadata passed to `ConvexClient.store_preference`, and
the string returned to the model. -/
structure RememberPrefResult where
  confidence : Int
  metadata : PrefMetadata
  response : String
deriving DecidableEq

/-- `HausAgent.remember_preference`.  `chatLast` is
`context.session.chat_context[-1].text_content` when the chat context
is non-empty (else `None`); `backend` is the HTTP outcome of the
`store_preference` call. -/
def remember_preference (chatLast : Option String)
    (category preference : String) (is_positive : Bool)
    (backend : HttpOutcome (Option Bool)) : RememberPrefResult :=
  let confidence : Int := if is_positive then 80 else 70
  let metadata : PrefMetadata :=
    if category = "suburb" then
      let parts := pySplit preference ", "
      { mentionedInQuery := chatLast
        suburbName := some (match parts with | s :: _ => s | [] => "")
        state := some (match parts with | _ :: s :: _ => s | _ => "NSW")
        reason := some "User stated this directly" }
    else
      { mentionedInQuery := chatLast
        suburbName := none
        state := none
        reason := none }
  let success := store_preference backend
  let response :=
    if success then
      "Got it! I\x27ll remember you " ++
        (if is_positive then "love" else "prefer to avoid") ++
        " " ++ preference ++ " for future searches."
    else
      "I had trouble saving that preference, but I\x27ll keep it in mind for this conversation."
  { confidence := confidence, metadata := metadata, response := response }

/-- A record of the static mock table in `HausAgent.get_property_details`. -/
structure PropertyDetails where
  id : String
  address : String
  price : Int
  bedrooms : Int
  bathrooms : Int
  parking : Int
  landsize : String
  year : Int
  features : List String
  description : String
deriving DecidableEq

/-- The static mock table (`properties.get(property_id)`). -/
def properties_table (property_id : String) : Option PropertyDetails :=
  if property_id = "prop-001" then
    some { id := "prop-001"
           address := "42 Ocean Street, Bondi Beach NSW 2026"
           price := 1500000
           bedrooms := 3
           bathrooms := 2
           parking := 1
           landsize := "450m²"
           year := 2020
           features := ["Ocean views", "Modern kitchen", "Air conditioning",
             "Close to beach"]
           description := "Stunning modern home with breathtaking ocean views. Recently renovated with premium finishes throughout." }
  else if property_id = "prop-002" then
    some { id := "prop-002"
           address := "15 Beach Road, Bondi Beach NSW 2026"
           price := 800000
           bedrooms := 2
           bathrooms := 1
           parking := 1
           landsize := "120m²"
           year := 2019
           features := ["New kitchen", "Floorboards", "North facing"]
           description := "Chic apartment in prime location, moments from the beach." }
  else none

/-- The string a tool returns together with whether the tool invoked
`ConvexClient.remember_conversation` (the fire-and-forget memory
write). -/
structure ToolOutcome where
  response : String
  memoryWrite : Bool
deriving DecidableEq

/-- `HausAgent.get_property_details`: not-found returns the apology
with no memory write; found issues the write and formats the details
block. -/
def get_property_details (property_id : String) : ToolOutcome :=
  match properties_table property_id with
  | none =>
      { response := "Sorry, I couldn\x27t find details for property " ++ property_id ++ "."
        memoryWrite := false }
  | some prop =>
      { response :=
          prop.address ++ "\n" ++
          "Price: $" ++ commaFormat prop.price ++ "\n" ++
          toString prop.bedrooms ++ " bed, " ++ toString prop.bathrooms ++ " bath, " ++
          toString prop.parking ++ " parking\n" ++
          "Built: " ++ toString prop.year ++ "\n\n" ++
          "Features: " ++ String.intercalate ", " (prop.features.take 3) ++ "\n\n" ++
          prop.description
        memoryWrite := true }

/-! ## Identity resolution (`haus_agent` entry point) -/

/-- `job_metadata.get("userId") or ctx.room.name or "anonymous"`:
`userId` is the metadata field (absent or a possibly-empty string),
`roomName` the room name. -/
def resolve_identity (userId roomName : Option String) : String :=
  pyOrStr userId (pyOrStr roomName "anonymous")

theorem on_user_turn_decomp (turn_ctx : List ChatMsg) (context : RecallResult) :
    on_user_turn_completed turn_ctx context =
      turn_ctx ++ suburbMsgs context ++ factMsgs context ++ interactionMsgs context := by
  unfold on_user_turn_completed suburbMsgs factMsgs interactionMsgs
  rcases context with ⟨mems, facts, inters, prefs⟩
  cases prefs <;> cases facts <;> cases inters <;> simp

/-! ## Claim theorems -/

/-- Claim C1 (code bug, evaluated at the failing input): the string
`search_properties` returns for location "Bondi" with all other
arguments absent is only the first fragment "Found 2 properties in
Bondi. " — it names the candidate count but not the top match bedroom
count, nor its formatted price, nor the follow-up invitation, because
the two f-strings after the `return` statement are unreachable.  Had
they been concatenated (`search_properties_intended_response`), the
summary would carry the invitation. -/
theorem search_response_drops_details :
    search_properties_response "Bondi" none none none none = "Found 2 properties in Bondi. " ∧
    containsSubstr (search_properties_intended_response "Bondi" none none none none)
      "Would you like more details" = true ∧
    containsSubstr (search_properties_response "Bondi" none none none none)
      "Would you like more details" = false ∧
    containsSubstr (search_properties_response "Bondi" none none none none)
      "bedroom" = false ∧
    containsSubstr (search_properties_response "Bondi" none none none none)
      "$" = false := by
  decide

/-- Claim C2, counterexample: with `budget_max` absent the two
synthesized prices are 1500000 and 800000, and the second is not the
first minus 200000. -/
theorem search_price_gap_counterexample :
    (search_properties "Bondi" none none none none).map SearchResult.price
      = [1500000, 800000] ∧
    ¬ ((800000 : Int) = 1500000 - 200000) := by
  decide

/-- Claim C2, amended: when `budget_max` is supplied and truthy
(non-zero), the second candidate record is priced 200000 below the
first; when `budget_max` is absent, the two fallbacks 1500000 and
1000000 - 200000 apply, so the prices are 1500000 and 800000 (a gap of
700000). -/
theorem search_price_gap_amended (location : String)
    (budget_min bedrooms : Option Int) (property_type : Option String) :
    (∀ v : Int, v ≠ 0 →
      (search_properties location budget_min (some v) bedrooms property_type).map
        SearchResult.price = [v, v - 200000]) ∧
    (search_properties location budget_min none bedrooms property_type).map
      SearchResult.price = [1500000, 800000] := by
  constructor
  · intro v hv
    simp [search_properties, pyOrInt, hv]
  · simp [search_properties, pyOrInt]

theorem search_price_gap_amended_witness :
    (900000 : Int) ≠ 0 ∧
    (search_properties "Bondi" none (some 900000) none none).map SearchResult.price
      = [900000, 700000] :=
  ⟨by decide, (search_price_gap_amended "Bondi" none none none).1 900000 (by decide)⟩

/-- Claim C3: whenever the recall HTTP call fails (transport error,
non-2xx status, or malformed body), `recall_context` returns the
all-empty `RecallResult`; as a total Lean function it propagates no
exception. -/
theorem recall_context_failure_all_empty (resp : HttpOutcome RecallResult)
    (h : isHttpFailure resp = true) :
    (recall_context resp).memories = [] ∧
    (recall_context resp).facts = [] ∧
    (recall_context resp).propertyInteractions = [] ∧
    (recall_context resp).suburbPreferences = [] := by
  cases resp with
  | transportError m => simp [recall_context, emptyRecall]
  | response status parsed =>
    by_cases hs : 200 ≤ status ∧ status < 300
    · cases parsed with
      | ok r => simp [isHttpFailure, hs] at h
      | error e => simp [recall_context, hs, emptyRecall]
    · simp [recall_context, hs, emptyRecall]

/-- A 500 response whose body nevertheless parses, used to instantiate
the recall failure contract. -/
def failingRecallResponse : HttpOutcome RecallResult :=
  HttpOutcome.response 500 (Except.ok
    { memories := ["m1"]
      facts := [{ fact := "loves the beach", confidence := 90 }]
      propertyInteractions := [{ propertyId := "prop-001", interactionType := "viewed" }]
      suburbPreferences := [{ suburbName := "Bondi", preferenceScore := 8 }] })

theorem recall_context_failure_all_empty_witness :
    isHttpFailure failingRecallResponse = true ∧
    ((recall_context failingRecallResponse).memories = [] ∧
     (recall_context failingRecallResponse).facts = [] ∧
     (recall_context failingRecallResponse).propertyInteractions = [] ∧
     (recall_context failingRecallResponse).suburbPreferences = []) :=
  ⟨by decide, recall_context_failure_all_empty failingRecallResponse (by decide)⟩

/-- Claim C4: when the recall result has a non-empty suburb-preference
sequence, the mediator appends exactly one synthetic assistant message
for it, whose content joins the first at most 5 entries with commas in
service order (the taken entries are a prefix of the service list),
each formatted as name (score: score). -/
theorem mediator_suburb_message (turn_ctx : List ChatMsg) (context : RecallResult)
    (h : context.suburbPreferences ≠ []) :
    on_user_turn_completed turn_ctx context =
      turn_ctx ++
        [ChatMsg.mk "assistant" ("User\x27s suburb preferences: " ++
          String.intercalate ", " ((context.suburbPreferences.take 5).map (fun p =>
            p.suburbName ++ " (score: " ++ toString p.preferenceScore ++ ")")))] ++
        factMsgs context ++ interactionMsgs context ∧
    (context.suburbPreferences.take 5).length ≤ 5 ∧
    context.suburbPreferences.take 5 <+: context.suburbPreferences := by
  refine ⟨?_, ?_, ?_⟩
  · rw [on_user_turn_decomp]
    have hs : context.suburbPreferences.isEmpty = false := by
      cases hc : context.suburbPreferences with
      | nil => exact absurd hc h
      | cons a l => rfl
    simp [suburbMsgs, hs]
  · rw [List.length_take]
    exact min_le_left _ _
  · exact ⟨context.suburbPreferences.drop 5, List.take_append_drop 5 _⟩

/-- A recall result carrying only one suburb preference. -/
def suburbOnlyRecall : RecallResult :=
  { memories := []
    facts := []
    propertyInteractions := []
    suburbPreferences := [{ suburbName := "Bondi", preferenceScore := 9 }] }

theorem mediator_suburb_message_witness :
    suburbOnlyRecall.suburbPreferences ≠ [] ∧
    (on_user_turn_completed [] suburbOnlyRecall =
      [] ++
        [ChatMsg.mk "assistant" ("User\x27s suburb preferences: " ++
          String.intercalate ", " ((suburbOnlyRecall.suburbPreferences.take 5).map (fun p =>
            p.suburbName ++ " (score: " ++ toString p.preferenceScore ++ ")")))] ++
        factMsgs suburbOnlyRecall ++ interactionMsgs suburbOnlyRecall ∧
     (suburbOnlyRecall.suburbPreferences.take 5).length ≤ 5 ∧
     suburbOnlyRecall.suburbPreferences.take 5 <+: suburbOnlyRecall.suburbPreferences) :=
  ⟨by decide, mediator_suburb_message [] suburbOnlyRecall (by decide)⟩

/-- Claim C5: when the recall result has a non-empty facts sequence,
the mediator appends exactly one synthetic message per fact for the
first at most 5 facts (a prefix of the service list, message count
min 5 (number of facts)), each carrying the fact text and confidence
verbatim in the "Remembered: ... (confidence: ...%)" format. -/
theorem mediator_fact_messages (turn_ctx : List ChatMsg) (context : RecallResult)
    (h : context.facts ≠ []) :
    on_user_turn_completed turn_ctx context =
      turn_ctx ++ suburbMsgs context ++
        (context.facts.take 5).map (fun f =>
          ChatMsg.mk "assistant"
            ("Remembered: " ++ f.fact ++ " (confidence: " ++ toString f.confidence ++ "%)")) ++
        interactionMsgs context ∧
    ((context.facts.take 5).map (fun f =>
        ChatMsg.mk "assistant"
          ("Remembered: " ++ f.fact ++ " (confidence: " ++ toString f.confidence ++ "%)"))).length
      = min 5 context.facts.length ∧
    context.facts.take 5 <+: context.facts := by
  refine ⟨?_, ?_, ?_⟩
  · rw [on_user_turn_decomp]
    rfl
  · rw [List.length_map, List.length_take]
  · exact ⟨context.facts.drop 5, List.take_append_drop 5 _⟩

/-- A recall result carrying only two facts. -/
def factsOnlyRecall : RecallResult :=
  { memories := []
    facts := [{ fact := "has a dog", confidence := 85 },
              { fact := "works in the city", confidence := 60 }]
    propertyInteractions := []
    suburbPreferences := [] }

theorem mediator_fact_messages_witness :
    factsOnlyRecall.facts ≠ [] ∧
    (on_user_turn_completed [] factsOnlyRecall =
      [] ++ suburbMsgs factsOnlyRecall ++
        (factsOnlyRecall.facts.take 5).map (fun f =>
          ChatMsg.mk "assistant"
            ("Remembered: " ++ f.fact ++ " (confidence: " ++ toString f.confidence ++ "%)")) ++
        interactionMsgs factsOnlyRecall ∧
     ((factsOnlyRecall.facts.take 5).map (fun f =>
         ChatMsg.mk "assistant"
           ("Remembered: " ++ f.fact ++ " (confidence: " ++ toString f.confidence ++ "%)"))).length
       = min 5 factsOnlyRecall.facts.length ∧
     factsOnlyRecall.facts.take 5 <+: factsOnlyRecall.facts) :=
  ⟨by decide, mediator_fact_messages [] factsOnlyRecall (by decide)⟩

/-- Claim C6: `remember_preference` with category "suburb" decomposes
the preference "Bondi, NSW" into metadata suburbName "Bondi" and state
"NSW", and the preference "Bondi" (no ", " separator) into suburbName
"Bondi" with state defaulting to "NSW", whatever the chat context,
sentiment flag and backend outcome. -/
theorem remember_preference_suburb_decomposition (chatLast : Option String)
    (is_positive : Bool) (backend : HttpOutcome (Option Bool)) :
    ((remember_preference chatLast "suburb" "Bondi, NSW" is_positive backend).metadata.suburbName
        = some "Bondi" ∧
     (remember_preference chatLast "suburb" "Bondi, NSW" is_positive backend).metadata.state
        = some "NSW") ∧
    ((remember_preference chatLast "suburb" "Bondi" is_positive backend).metadata.suburbName
        = some "Bondi" ∧
     (remember_preference chatLast "suburb" "Bondi" is_positive backend).metadata.state
        = some "NSW") :=
  ⟨⟨rfl, rfl⟩, ⟨rfl, rfl⟩⟩

/-- Claim C7: `remember_preference` passes confidence 80 to the store
when `is_positive` is true and 70 when it is false, and on a successful
store returns the love-framed (resp. prefer-to-avoid-framed)
confirmation string. -/
theorem remember_preference_sentiment (chatLast : Option String)
    (category preference : String) (backend : HttpOutcome (Option Bool))
    (h : store_preference backend = true) :
    ((remember_preference chatLast category preference true backend).confidence = 80 ∧
     (remember_preference chatLast category preference true backend).response =
       "Got it! I\x27ll remember you love " ++ preference ++ " for future searches.") ∧
    ((remember_preference chatLast category preference false backend).confidence = 70 ∧
     (remember_preference chatLast category preference false backend).response =
       "Got it! I\x27ll remember you prefer to avoid " ++ preference ++
         " for future searches.") := by
  unfold remember_preference
  rw [h]
  exact ⟨⟨rfl, rfl⟩, ⟨rfl, rfl⟩⟩

theorem remember_preference_sentiment_witness :
    store_preference (HttpOutcome.response 200 (Except.ok (some true))) = true ∧
    (((remember_preference none "suburb" "Bondi" true
        (HttpOutcome.response 200 (Except.ok (some true)))).confidence = 80 ∧
      (remember_preference none "suburb" "Bondi" true
        (HttpOutcome.response 200 (Except.ok (some true)))).response =
        "Got it! I\x27ll remember you love " ++ "Bondi" ++ " for future searches.") ∧
     ((remember_preference none "suburb" "Bondi" false
        (HttpOutcome.response 200 (Except.ok (some true)))).confidence = 70 ∧
      (remember_preference none "suburb" "Bondi" false
        (HttpOutcome.response 200 (Except.ok (some true)))).response =
        "Got it! I\x27ll remember you prefer to avoid " ++ "Bondi" ++
          " for future searches.")) :=
  ⟨by decide, remember_preference_sentiment none "suburb" "Bondi" _ (by decide)⟩

/-- Claim C8: `get_property_details "prop-001"` returns a string
containing the address, the thousands-grouped price and exactly the
first 3 features joined with ", " (the 4th feature is absent); any
unknown id yields the apology string naming the id and performs no
memory write. -/
theorem get_property_details_spec :
    (containsSubstr (get_property_details "prop-001").response
        "42 Ocean Street, Bondi Beach NSW 2026" = true ∧
     containsSubstr (get_property_details "prop-001").response "$1,500,000" = true ∧
     containsSubstr (get_property_details "prop-001").response
        ("Features: " ++ String.intercalate ", "
          ["Ocean views", "Modern kitchen", "Air conditioning"] ++ "\n") = true ∧
     containsSubstr (get_property_details "prop-001").response "Close to beach" = false) ∧
    (∀ property_id : String, properties_table property_id = none →
      get_property_details property_id =
        { response := "Sorry, I couldn\x27t find details for property " ++ property_id ++ "."
          memoryWrite := false }) := by
  constructor
  · exact ⟨by decide, by decide, by decide, by decide⟩
  · intro pid h
    unfold get_property_details
    rw [h]

theorem get_property_details_spec_witness :
    properties_table "unknown-id" = none ∧
    get_property_details "unknown-id" =
      { response := "Sorry, I couldn\x27t find details for property unknown-id."
        memoryWrite := false } :=
  ⟨by decide, get_property_details_spec.2 "unknown-id" (by decide)⟩

/-- Claim C9: whenever the store call fails (`store_preference` reports
false, e.g. on a backend 500), `remember_preference` returns the soft
degradation string; as a total Lean function it raises no exception. -/
theorem remember_preference_soft_degradation (chatLast : Option String)
    (category preference : String) (is_positive : Bool)
    (backend : HttpOutcome (Option Bool))
    (h : store_preference backend = false) :
    (remember_preference chatLast category preference is_positive backend).response =
      "I had trouble saving that preference, but I\x27ll keep it in mind for this conversation." := by
  unfold remember_preference
  rw [h]
  rfl

theorem remember_preference_soft_degradation_witness :
    store_preference (HttpOutcome.response 500 (Except.ok (some true))) = false ∧
    (remember_preference none "suburb" "Bondi" true
        (HttpOutcome.response 500 (Except.ok (some true)))).response =
      "I had trouble saving that preference, but I\x27ll keep it in mind for this conversation." :=
  ⟨by decide,
    remember_preference_soft_degradation none "suburb" "Bondi" true _ (by decide)⟩

/-- Claim C10: an empty-string "userId" metadata field is falsy and is
skipped exactly like a missing one; the identity falls through to the
room name, and when the room name is also empty or absent it resolves
to "anonymous". -/
theorem resolve_identity_skips_falsy (roomName : Option String) :
    resolve_identity (some "") roomName = resolve_identity none roomName ∧
    resolve_identity (some "") none = "anonymous" ∧
    resolve_identity (some "") (some "") = "anonymous" ∧
    (∀ r : String, r ≠ "" → resolve_identity (some "") (some r) = r) := by
  refine ⟨rfl, rfl, rfl, ?_⟩
  intro r hr
  simp [resolve_identity, pyOrStr, hr]

theorem resolve_identity_skips_falsy_witness :
    "room42" ≠ "" ∧
    resolve_identity (some "") (some "room42") = "room42" :=
  ⟨by decide, (resolve_identity_skips_falsy (some "room42")).2.2.2 "room42" (by decide)⟩

end Haus
